import Mathlib

/-!
Shallow embedding of the freedomadnetwork bidder adapter
(src/modules/fanAdapter.js) and proofs about the claims of its
specification.

Modelling conventions, used throughout:
* JavaScript values that may be `undefined` or `null` are modelled as
  `Option` values; `none` stands for an absent or null field.
* JavaScript truthiness on numbers and strings is modelled by `natTruthy`
  and `strTruthy` (`0`, the empty string, `undefined` and `null` are falsy).
* A thrown `TypeError` (reading a property of `null`/`undefined`) is
  modelled with `Except`: `Except.error` is a thrown exception.
* The ambient browser environment (`window.screen`, `navigator`) is a
  record `Env`; the host global configuration (`config.getConfig`) is a
  record `Config`.  `config.getConfig` hands out the stored object itself,
  so the field assignments that `getDevice` performs on the device object
  act on the configured object; the embedding threads the resulting
  configuration state explicitly.
* Logging (`utils.logWarn`, `utils.logError`) is ignored: it carries no
  data flow relevant to any claim.
-/

namespace FanAdapter

/-- JavaScript truthiness of an optional number: `undefined`, `null` and
`0` are falsy. -/
def natTruthy : Option Nat → Bool
  | none => false
  | some n => n != 0

/-- JavaScript truthiness of an optional string: `undefined`, `null` and
the empty string are falsy. -/
def strTruthy : Option String → Bool
  | none => false
  | some s => s != ""

/-! ### MD5 (crypto-js MD5, as used by generateUserId)

The adapter hashes `navigator.userAgent` with crypto-js MD5 and renders
the 128-bit digest as 32 lowercase hexadecimal characters.  The hash is
modelled bit-for-bit: UTF-8 encoding of the input string, RFC 1321
padding, 64 rounds per 512-bit block, little-endian hex rendering.
All word arithmetic is `Nat` reduced modulo `2 ^ 32`. -/

/-- UTF-8 encoding of one unicode scalar value, as a list of bytes. -/
def utf8Bytes (c : Char) : List Nat :=
  let n := c.toNat
  if n < 0x80 then [n]
  else if n < 0x800 then
    [0xc0 ||| (n >>> 6), 0x80 ||| (n &&& 0x3f)]
  else if n < 0x10000 then
    [0xe0 ||| (n >>> 12), 0x80 ||| ((n >>> 6) &&& 0x3f), 0x80 ||| (n &&& 0x3f)]
  else
    [0xf0 ||| (n >>> 18), 0x80 ||| ((n >>> 12) &&& 0x3f),
     0x80 ||| ((n >>> 6) &&& 0x3f), 0x80 ||| (n &&& 0x3f)]

/-- UTF-8 bytes of a string. -/
def strBytes (s : String) : List Nat :=
  (s.toList.map utf8Bytes).flatten

/-- The 64 MD5 sine-derived round constants. -/
def md5K : List Nat :=
  [0xd76aa478, 0xe8c7b756, 0x242070db, 0xc1bdceee,
   0xf57c0faf, 0x4787c62a, 0xa8304613, 0xfd469501,
   0x698098d8, 0x8b44f7af, 0xffff5bb1, 0x895cd7be,
   0x6b901122, 0xfd987193, 0xa679438e, 0x49b40821,
   0xf61e2562, 0xc040b340, 0x265e5a51, 0xe9b6c7aa,
   0xd62f105d, 0x02441453, 0xd8a1e681, 0xe7d3fbc8,
   0x21e1cde6, 0xc33707d6, 0xf4d50d87, 0x455a14ed,
   0xa9e3e905, 0xfcefa3f8, 0x676f02d9, 0x8d2a4c8a,
   0xfffa3942, 0x8771f681, 0x6d9d6122, 0xfde5380c,
   0xa4beea44, 0x4bdecfa9, 0xf6bb4b60, 0xbebfbc70,
   0x289b7ec6, 0xeaa127fa, 0xd4ef3085, 0x04881d05,
   0xd9d4d039, 0xe6db99e5, 0x1fa27cf8, 0xc4ac5665,
   0xf4292244, 0x432aff97, 0xab9423a7, 0xfc93a039,
   0x655b59c3, 0x8f0ccc92, 0xffeff47d, 0x85845dd1,
   0x6fa87e4f, 0xfe2ce6e0, 0xa3014314, 0x4e0811a1,
   0xf7537e82, 0xbd3af235, 0x2ad7d2bb, 0xeb86d391]

/-- The per-round left-rotation amounts of MD5. -/
def md5S : List Nat :=
  [7, 12, 17, 22, 7, 12, 17, 22, 7, 12, 17, 22, 7, 12, 17, 22,
   5, 9, 14, 20, 5, 9, 14, 20, 5, 9, 14, 20, 5, 9, 14, 20,
   4, 11, 16, 23, 4, 11, 16, 23, 4, 11, 16, 23, 4, 11, 16, 23,
   6, 10, 15, 21, 6, 10, 15, 21, 6, 10, 15, 21, 6, 10, 15, 21]

/-- Left rotation of a 32-bit word. -/
def rotl32 (x s : Nat) : Nat :=
  ((x <<< s) ||| (x >>> (32 - s))) % 4294967296

/-- RFC 1321 padding: append `0x80`, zero bytes up to 56 mod 64, then the
bit length as eight little-endian bytes. -/
def md5Pad (m : List Nat) : List Nat :=
  let zeros := (120 - ((m.length + 1) % 64)) % 64
  m ++ 0x80 :: List.replicate zeros 0 ++
    (List.range 8).map (fun i => ((8 * m.length) >>> (8 * i)) % 256)

/-- Split a padded message into 64-byte blocks, driven by a block-count
fuel so the recursion is structural. -/
def md5Chunks : Nat → List Nat → List (List Nat)
  | 0, _ => []
  | n + 1, l => l.take 64 :: md5Chunks n (l.drop 64)

/-- All 64-byte blocks of a padded message. -/
def md5Blocks (l : List Nat) : List (List Nat) :=
  md5Chunks (l.length / 64) l

/-- Little-endian 32-bit word number `g` of a 64-byte block. -/
def wordAt (block : List Nat) (g : Nat) : Nat :=
  block.getD (4 * g) 0 + 256 * block.getD (4 * g + 1) 0 +
    65536 * block.getD (4 * g + 2) 0 + 16777216 * block.getD (4 * g + 3) 0

/-- The MD5 nonlinear round function for round `i` (bitwise NOT of a
32-bit word is xor with `0xffffffff`). -/
def md5F (i b c d : Nat) : Nat :=
  if i < 16 then (b &&& c) ||| ((b ^^^ 0xffffffff) &&& d)
  else if i < 32 then (d &&& b) ||| ((d ^^^ 0xffffffff) &&& c)
  else if i < 48 then b ^^^ c ^^^ d
  else c ^^^ (b ||| (d ^^^ 0xffffffff))

/-- The message-word index used in round `i`. -/
def md5G (i : Nat) : Nat :=
  if i < 16 then i
  else if i < 32 then (5 * i + 1) % 16
  else if i < 48 then (3 * i + 5) % 16
  else (7 * i) % 16

/-- One MD5 round on the state `(a, b, c, d)`. -/
def md5Round (block : List Nat) (st : Nat × Nat × Nat × Nat) (i : Nat) :
    Nat × Nat × Nat × Nat :=
  let a := st.1
  let b := st.2.1
  let c := st.2.2.1
  let d := st.2.2.2
  let f := (md5F i b c d + a + md5K.getD i 0 + wordAt block (md5G i)) % 4294967296
  (d, (b + rotl32 f (md5S.getD i 0)) % 4294967296, b, c)

/-- Process one 64-byte block: 64 rounds, then add the round output to the
incoming state modulo `2 ^ 32`. -/
def md5ProcessBlock (st : Nat × Nat × Nat × Nat) (block : List Nat) :
    Nat × Nat × Nat × Nat :=
  let r := (List.range 64).foldl (md5Round block) st
  ((st.1 + r.1) % 4294967296,
   (st.2.1 + r.2.1) % 4294967296,
   (st.2.2.1 + r.2.2.1) % 4294967296,
   (st.2.2.2 + r.2.2.2) % 4294967296)

/-- The MD5 initialisation vector. -/
def md5Init : Nat × Nat × Nat × Nat :=
  (0x67452301, 0xefcdab89, 0x98badcfe, 0x10325476)

/-- Final MD5 state of a byte message. -/
def md5Final (m : List Nat) : Nat × Nat × Nat × Nat :=
  (md5Blocks (md5Pad m)).foldl md5ProcessBlock md5Init

/-- The four little-endian bytes of a 32-bit word. -/
def wordBytes (w : Nat) : List Nat :=
  [w % 256, (w >>> 8) % 256, (w >>> 16) % 256, (w >>> 24) % 256]

/-- The 16-byte MD5 digest of a byte message. -/
def md5Digest (m : List Nat) : List Nat :=
  wordBytes (md5Final m).1 ++ wordBytes (md5Final m).2.1 ++
    wordBytes (md5Final m).2.2.1 ++ wordBytes (md5Final m).2.2.2

/-- The sixteen lowercase hexadecimal digit characters. -/
def hexChars : List Char :=
  "0123456789abcdef".toList

/-- Lowercase hexadecimal digit character of `n % 16`. -/
def hexDigit (n : Nat) : Char :=
  hexChars.getD (n % 16) '0'

/-- Two-character lowercase hex rendering of one byte. -/
def byteToHex (b : Nat) : List Char :=
  [hexDigit (b / 16), hexDigit b]

/-- crypto-js `MD5(s).toString()`: the MD5 digest of the UTF-8 bytes of
`s`, rendered as 32 lowercase hexadecimal characters. -/
def md5Hex (s : String) : String :=
  String.mk ((md5Digest (strBytes s)).map byteToHex).flatten

/-! ### Ambient environment and host configuration -/

/-- The browser environment read by the adapter: `window.screen`,
`navigator.userAgent`, the locale fields of `navigator`, and the
do-not-track signal `utils.getDNT()`. -/
structure Env where
  screenWidth : Nat
  screenHeight : Nat
  userAgent : String
  languages : Option (List String)
  language : Option String
  userLanguage : Option String
  dntFlag : Bool
  deriving DecidableEq

/-- The device object: its five fields may each be set or unset.  `dnt`
is `some v` when the field holds a number (the `typeof` test of
`getDevice`). -/
structure Device where
  w : Option Nat
  h : Option Nat
  ua : Option String
  language : Option String
  dnt : Option Int
  deriving DecidableEq

/-- A device object with no field set, as created by the literal in
`config.getConfig('device') || \x7b\x7d`. -/
def emptyDevice : Device :=
  { w := none, h := none, ua := none, language := none, dnt := none }

/-- The host global configuration read through `config.getConfig`:
`debug` flag, `coppa` flag, and the optional device override object. -/
structure Config where
  debug : Bool
  coppa : Bool
  device : Option Device
  deriving DecidableEq

/-- `getLanguage`: first entry of `navigator.languages`, else
`navigator.language`, else `navigator.userLanguage`, each step under
JavaScript truthiness; the result is the part before the first dash, or
the literal `en` when everything is falsy. -/
def getLanguage (env : Env) : String :=
  let fromList : Option String := env.languages.bind fun l => l.head?
  let lang : Option String :=
    if strTruthy fromList then fromList
    else if strTruthy env.language then env.language
    else env.userLanguage
  match lang with
  | some s => if s != "" then (s.splitOn "-").headD "" else "en"
  | none => "en"

/-- `getDevice`: starts from the configured device override (or a fresh
empty object), assigns every unset field from the environment and always
makes `dnt` numeric.  The assignments act on the object handed out by
`config.getConfig('device')`, so when an override is configured the
updated object is the configured one: the returned configuration reflects
that in-place update; with no override configured the fresh object is
private and the configuration is untouched. -/
def getDevice (cfg : Config) (env : Env) : Device × Config :=
  let d0 := cfg.device.getD emptyDevice
  let d1 : Device :=
    { w := if natTruthy d0.w then d0.w else some env.screenWidth
      h := if natTruthy d0.h then d0.h else some env.screenHeight
      ua := if strTruthy d0.ua then d0.ua else some env.userAgent
      language := if strTruthy d0.language then d0.language
                  else some (getLanguage env)
      dnt := some (d0.dnt.getD (if env.dntFlag then 1 else 0)) }
  match cfg.device with
  | some _ => (d1, { cfg with device := some d1 })
  | none => (d1, cfg)

/-- `generateUserId`: the MD5 hash of `navigator.userAgent`, rendered as
lowercase hex. -/
def generateUserId (env : Env) : String :=
  md5Hex env.userAgent

/-! ### Bid requests and validity -/

/-- `bid.params`; `placementId` may be absent (`none`) or any string. -/
structure BidParams where
  placementId : Option String
  deriving DecidableEq

/-- `bid.mediaTypes`; `banner = some ()` models a defined
`mediaTypes.banner` value of any shape (the code only compares it with
`undefined`). -/
structure MediaTypes where
  banner : Option Unit
  deriving DecidableEq

/-- One bid request as seen by the adapter. -/
structure Bid where
  bidId : String
  params : Option BidParams
  mediaTypes : Option MediaTypes
  deriving DecidableEq

/-- `isBidRequestValid`: false for an absent bid, absent `params`, falsy
`params.placementId`, or `undefined` `mediaTypes.banner`; true otherwise.
The `logWarn` calls carry no data and are omitted. -/
def isBidRequestValid : Option Bid → Bool
  | none => false
  | some bid =>
    match bid.params with
    | none => false
    | some p =>
      if strTruthy p.placementId then
        match bid.mediaTypes with
        | none => false
        | some mt => mt.banner.isSome
      else false

/-! ### Request building -/

/-- The per-auction context `bidderRequest`: timeout, GDPR consent
context and US-privacy string. -/
structure GdprConsent where
  gdprApplies : Bool
  consentString : String
  deriving DecidableEq

/-- The `bidderRequest` argument of `buildRequests`. -/
structure BidderRequest where
  timeout : Nat
  gdprConsent : Option GdprConsent
  uspConsent : Option String
  deriving DecidableEq

/-- The `user` object of the outbound payload; `gdpr`, `consent` and
`usp` are present only when attached. -/
structure UserObj where
  coppa : Nat
  gdpr : Option Nat
  consent : Option String
  usp : Option String
  deriving DecidableEq

/-- The outbound payload, i.e. the serialized request body after parsing.
`placements` entries are `Option` because `bid.params.placementId` may be
`undefined` without throwing. -/
structure Payload where
  id : String
  tmax : Nat
  placements : List (Option String)
  test : Nat
  device : Device
  at_ : Nat
  user : UserObj
  deriving DecidableEq

/-- The outbound request descriptor produced by `buildBidRequest`.
`data` holds the payload whose serialization is the body. -/
structure Request where
  method : String
  url : String
  data : Payload
  contentType : String
  withCredentials : Bool
  acceptLanguage : String
  authorization : String
  originalBidRequest : Bid
  deriving DecidableEq

/-- `buildBidRequest bid bidderRequest`: computes the user id, then the
payload, then attaches the GDPR and US-privacy fields.  Reading
`bid.params.placementId` when `bid.params` is absent throws a
`TypeError`; that happens before `getDevice` runs, so the configuration
is then unchanged and the result is `none`.  The returned configuration
is the one `getDevice` leaves behind. -/
def buildBidRequest (bid : Bid) (br : BidderRequest) (cfg : Config)
    (env : Env) : Option Request × Config :=
  let userId := generateUserId env
  match bid.params with
  | none => (none, cfg)
  | some p =>
    let dres := getDevice cfg env
    let user0 : UserObj :=
      { coppa := if cfg.coppa then 1 else 0
        gdpr := none, consent := none, usp := none }
    let user1 : UserObj :=
      match br.gdprConsent with
      | some g =>
        if g.gdprApplies then
          { user0 with gdpr := some 1, consent := some g.consentString }
        else user0
      | none => user0
    let user2 : UserObj :=
      if strTruthy br.uspConsent then { user1 with usp := br.uspConsent }
      else user1
    (some
      { method := "POST"
        url := "https://srv.freedomadnetwork.com/pb/req"
        data :=
          { id := bid.bidId
            tmax := br.timeout
            placements := [p.placementId]
            test := if cfg.debug then 1 else 0
            device := dres.1
            at_ := 2
            user := user2 }
        contentType := "application/json"
        withCredentials := false
        acceptLanguage := "en;q=10"
        authorization := "Bearer " ++ userId
        originalBidRequest := bid },
     dres.2)

/-- `buildRequests`: maps `buildBidRequest` over the valid bid requests,
threading the configuration state that `getDevice` may update.  A bid
whose `params` is absent would abort the JavaScript `map` with a
`TypeError`; it is modelled as a `none` entry, which no claim touches. -/
def buildRequests (bids : List Bid) (br : BidderRequest) (cfg : Config)
    (env : Env) : List (Option Request) × Config :=
  match bids with
  | [] => ([], cfg)
  | b :: rest =>
    let p := buildBidRequest b br cfg env
    let q := buildRequests rest br p.2 env
    (p.1 :: q.1, q.2)

/-! ### Response interpretation -/

/-- One tracker of a server bid entry: a numeric type code and a URL. -/
structure Tracker where
  type : Int
  url : String
  deriving DecidableEq

/-- One server-side bid entry.  Every field may be absent (`undefined`):
reading an absent property of an object yields `undefined` without
throwing.  Prices are only copied, never computed on, and are modelled as
integers. -/
structure ServerBidEntry where
  id : Option String
  bidid : Option String
  impid : Option String
  userId : Option String
  cpm : Option Int
  currency : Option String
  width : Option Nat
  height : Option Nat
  payload : Option String
  ttl : Option Nat
  crid : Option String
  netRevenue : Option Bool
  trackers : Option (List Tracker)
  mediaType : Option String
  domains : Option (List String)
  deriving DecidableEq

/-- A server bid entry with every field absent. -/
def emptyEntry : ServerBidEntry :=
  { id := none, bidid := none, impid := none, userId := none, cpm := none
    currency := none, width := none, height := none, payload := none
    ttl := none, crid := none, netRevenue := none, trackers := none
    mediaType := none, domains := none }

/-- The `meta` object of an interpreted bid. -/
structure BidMeta where
  mediaType : Option String
  advertiserDomains : Option (List String)
  deriving DecidableEq

/-- One interpreted bid: the direct field copy performed inside the
`forEach` of `interpretResponse`. -/
structure BidResponse where
  requestId : Option String
  bidid : Option String
  impid : Option String
  userId : Option String
  cpm : Option Int
  currency : Option String
  width : Option Nat
  height : Option Nat
  ad : Option String
  ttl : Option Nat
  creativeId : Option String
  netRevenue : Option Bool
  trackers : Option (List Tracker)
  meta : BidMeta
  deriving DecidableEq

/-- The field-by-field copy of one server bid entry. -/
def interpretEntry (r : ServerBidEntry) : BidResponse :=
  { requestId := r.id
    bidid := r.bidid
    impid := r.impid
    userId := r.userId
    cpm := r.cpm
    currency := r.currency
    width := r.width
    height := r.height
    ad := r.payload
    ttl := r.ttl
    creativeId := r.crid
    netRevenue := r.netRevenue
    trackers := r.trackers
    meta := { mediaType := r.mediaType, advertiserDomains := r.domains } }

/-- The `forEach` body of `interpretResponse` over the entries of an
array body.  An entry that is `null` or `undefined` makes the property
read `response.id` throw a `TypeError`, which aborts the whole call. -/
def interpretEntries : List (Option ServerBidEntry) →
    Except String (List BidResponse)
  | [] => Except.ok []
  | none :: _ => Except.error "TypeError: cannot read properties of null"
  | some r :: rest =>
    match interpretEntries rest with
    | Except.ok l => Except.ok (interpretEntry r :: l)
    | Except.error e => Except.error e

/-- `interpretResponse`: a falsy body (`undefined`, `null`, empty string)
yields the empty list; an array body (`some`, truthy even when the array
is empty) is traversed entry by entry. -/
def interpretResponse (body : Option (List (Option ServerBidEntry))) :
    Except String (List BidResponse) :=
  match body with
  | none => Except.ok []
  | some entries => interpretEntries entries

/-! ### Win notification -/

/-- The fields of a winning bid that `onBidWon` reads. -/
structure WonBid where
  bidid : Option String
  impid : Option String
  cpm : Option Int
  userId : Option String
  trackers : Option (List Tracker)
  deriving DecidableEq

/-- The observable content of the `ajax` billing call of `onBidWon`. -/
structure AjaxCall where
  url : String
  id : Option String
  impid : Option String
  t : Option Int
  user : Option String
  deriving DecidableEq

/-- The pixel-firing loop of `onBidWon`: walks the tracker list in order
and fires `utils.triggerPixel` on the URL of every tracker whose type
code equals `0`. -/
def firePixels : List Tracker → List String
  | [] => []
  | t :: rest =>
    if t.type == 0 then t.url :: firePixels rest else firePixels rest

/-- `onBidWon`: its observable effects.  The first component is the
billing `ajax` POST (absent for an absent bid), the second the list of
tracking-pixel URLs fired, in order.  The guard
`bid.trackers && bid.trackers.length > 0` precedes the loop. -/
def onBidWon : Option WonBid → Option AjaxCall × List String
  | none => (none, [])
  | some bid =>
    let call : AjaxCall :=
      { url := "https://srv.freedomadnetwork.com/pb/imp"
        id := bid.bidid
        impid := bid.impid
        t := bid.cpm
        user := bid.userId }
    let pixels :=
      match bid.trackers with
      | none => []
      | some ts => if ts.length > 0 then firePixels ts else []
    (some call, pixels)

/-! ### Concrete inputs used by witnesses and counterexamples -/

/-- A small concrete browser environment. -/
def envEx : Env :=
  { screenWidth := 1024, screenHeight := 768
    userAgent := "Mozilla/5.0 Example"
    languages := some ["en-US", "en"]
    language := none, userLanguage := none, dntFlag := false }

/-- A valid concrete bid request. -/
def bidEx : Bid :=
  { bidId := "bid-1"
    params := some { placementId := some "plc-9" }
    mediaTypes := some { banner := some () } }

/-- A bid request whose `placementId` is present but the empty string. -/
def bidEmptyPid : Bid :=
  { bidId := "bid-2"
    params := some { placementId := some "" }
    mediaTypes := some { banner := some () } }

/-- A concrete auction context with GDPR applying and a US-privacy
string. -/
def brEx : BidderRequest :=
  { timeout := 300
    gdprConsent := some { gdprApplies := true, consentString := "CONSENT-XYZ" }
    uspConsent := some "1YNN" }

/-- A configuration with a device override that has no field set. -/
def cfgDev : Config :=
  { debug := false, coppa := false, device := some emptyDevice }

/-- A configuration with no device override. -/
def cfgNoDev : Config :=
  { debug := true, coppa := true, device := none }

/-- Whether every field of a device override is already set (truthy
width, height, user agent and language, numeric `dnt`). -/
def deviceFullySet (d : Device) : Bool :=
  natTruthy d.w && natTruthy d.h && strTruthy d.ua &&
    strTruthy d.language && d.dnt.isSome

/-! ### Helper lemmas about the configuration state -/

theorem getDevice_config_of_none (cfg : Config) (env : Env)
    (h : cfg.device = none) : (getDevice cfg env).2 = cfg := by
  simp [getDevice, h]

theorem getDevice_config_of_fullySet (cfg : Config) (env : Env) (d : Device)
    (h : cfg.device = some d) (hf : deviceFullySet d = true) :
    (getDevice cfg env).2 = cfg := by
  simp only [deviceFullySet, Bool.and_eq_true] at hf
  obtain ⟨⟨⟨⟨hw, hh⟩, hua⟩, hlang⟩, hdnt⟩ := hf
  obtain ⟨v, hv⟩ := Option.isSome_iff_exists.mp hdnt
  obtain ⟨db, cp, dev⟩ := cfg
  simp only at h
  subst h
  simp [getDevice, hw, hh, hua, hlang, hv]
  cases d
  simp_all

theorem getDevice_config_debug (cfg : Config) (env : Env) :
    (getDevice cfg env).2.debug = cfg.debug := by
  cases h : cfg.device <;> simp [getDevice, h]

theorem getDevice_config_coppa (cfg : Config) (env : Env) :
    (getDevice cfg env).2.coppa = cfg.coppa := by
  cases h : cfg.device <;> simp [getDevice, h]

theorem buildBidRequest_config_debug (b : Bid) (br : BidderRequest)
    (cfg : Config) (env : Env) :
    (buildBidRequest b br cfg env).2.debug = cfg.debug := by
  cases h : b.params <;>
    simp [buildBidRequest, h, getDevice_config_debug]

theorem buildBidRequest_config_coppa (b : Bid) (br : BidderRequest)
    (cfg : Config) (env : Env) :
    (buildBidRequest b br cfg env).2.coppa = cfg.coppa := by
  cases h : b.params <;>
    simp [buildBidRequest, h, getDevice_config_coppa]

theorem buildBidRequest_config_pres (b : Bid) (br : BidderRequest)
    (cfg : Config) (env : Env)
    (h : cfg.device = none ∨ ∃ d, cfg.device = some d ∧ deviceFullySet d = true) :
    (buildBidRequest b br cfg env).2 = cfg := by
  cases hp : b.params with
  | none => simp [buildBidRequest, hp]
  | some p =>
    simp only [buildBidRequest, hp]
    rcases h with h | ⟨d, hd, hf⟩
    · exact getDevice_config_of_none cfg env h
    · exact getDevice_config_of_fullySet cfg env d hd hf

theorem buildRequests_config_debug (bids : List Bid) :
    ∀ (br : BidderRequest) (cfg : Config) (env : Env),
      (buildRequests bids br cfg env).2.debug = cfg.debug := by
  induction bids with
  | nil => intro br cfg env; rfl
  | cons b rest ih =>
    intro br cfg env
    simp only [buildRequests]
    rw [ih]
    exact buildBidRequest_config_debug b br cfg env

theorem buildRequests_config_coppa (bids : List Bid) :
    ∀ (br : BidderRequest) (cfg : Config) (env : Env),
      (buildRequests bids br cfg env).2.coppa = cfg.coppa := by
  induction bids with
  | nil => intro br cfg env; rfl
  | cons b rest ih =>
    intro br cfg env
    simp only [buildRequests]
    rw [ih]
    exact buildBidRequest_config_coppa b br cfg env

theorem buildRequests_config_pres (bids : List Bid) :
    ∀ (br : BidderRequest) (cfg : Config) (env : Env),
      (cfg.device = none ∨ ∃ d, cfg.device = some d ∧ deviceFullySet d = true) →
      (buildRequests bids br cfg env).2 = cfg := by
  induction bids with
  | nil => intro br cfg env _; rfl
  | cons b rest ih =>
    intro br cfg env h
    simp only [buildRequests]
    rw [buildBidRequest_config_pres b br cfg env h]
    exact ih br cfg env h

/-! ### The claims -/

/-- C1, amended: building requests never changes the debug or COPPA
flags, and leaves the whole configuration unchanged whenever no device
override is configured, or the configured override already has every
field set; the unset fields of a configured override, however, are
filled in place (see the counterexample). -/
theorem claim1_amended (bids : List Bid) (br : BidderRequest) (cfg : Config)
    (env : Env) :
    (buildRequests bids br cfg env).2.debug = cfg.debug ∧
    (buildRequests bids br cfg env).2.coppa = cfg.coppa ∧
    ((cfg.device = none ∨ ∃ d, cfg.device = some d ∧ deviceFullySet d = true) →
      (buildRequests bids br cfg env).2 = cfg) :=
  ⟨buildRequests_config_debug bids br cfg env,
   buildRequests_config_coppa bids br cfg env,
   fun h => buildRequests_config_pres bids br cfg env h⟩

/-- C1, witness: with no device override configured, a concrete valid
request leaves the concrete configuration unchanged. -/
theorem claim1_witness :
    (buildRequests [bidEx] brEx cfgNoDev envEx).2.debug = cfgNoDev.debug ∧
    (buildRequests [bidEx] brEx cfgNoDev envEx).2.coppa = cfgNoDev.coppa ∧
    (buildRequests [bidEx] brEx cfgNoDev envEx).2 = cfgNoDev :=
  ⟨(claim1_amended [bidEx] brEx cfgNoDev envEx).1,
   (claim1_amended [bidEx] brEx cfgNoDev envEx).2.1,
   (claim1_amended [bidEx] brEx cfgNoDev envEx).2.2 (Or.inl rfl)⟩

/-- C1, counterexample: for a concrete valid bid request and a
configuration holding a device override with no field set, the
configuration observably changes across `buildRequests` — `getDevice`
fills the override object in place, contradicting the claim that the
configuration is observationally unchanged. -/
theorem claim1_counterexample :
    isBidRequestValid (some bidEx) = true ∧
    (buildRequests [bidEx] brEx cfgDev envEx).2 ≠ cfgDev := by
  refine ⟨rfl, ?_⟩
  decide

/-- C9: `onBidWon` with an absent bid performs no billing call and fires
no pixel. -/
theorem claim9 : onBidWon none = (none, []) := rfl

/-- C6: a server response whose body is absent, and one whose body is an
empty array, both interpret to the empty bid list with no error. -/
theorem claim6 :
    interpretResponse none = Except.ok [] ∧
    interpretResponse (some []) = Except.ok [] :=
  ⟨rfl, rfl⟩

/-- C3, counterexample: a bid request whose `params.placementId` is
present but the empty string, and which declares a banner media type, is
nevertheless rejected — the code tests JavaScript truthiness, not
presence, so the claim that presence suffices is false. -/
theorem claim3_counterexample :
    bidEmptyPid.params = some { placementId := some "" } ∧
    bidEmptyPid.mediaTypes = some { banner := some () } ∧
    isBidRequestValid (some bidEmptyPid) = false :=
  ⟨rfl, rfl, rfl⟩

/-- C3, amended: `isBidRequestValid` returns true exactly when the bid
is present, `params` is present, `params.placementId` is truthy (present
and not the empty string), and `mediaTypes.banner` is defined; in every
other case — absent bid, absent params, absent or empty placementId, or
no banner media type — it returns false. -/
theorem claim3_amended (ob : Option Bid) :
    isBidRequestValid ob = true ↔
      ∃ b p mt, ob = some b ∧ b.params = some p ∧
        strTruthy p.placementId = true ∧ b.mediaTypes = some mt ∧
        mt.banner.isSome = true := by
  cases ob with
  | none => simp [isBidRequestValid]
  | some b =>
    cases hp : b.params with
    | none => simp [isBidRequestValid, hp]
    | some p =>
      by_cases ht : strTruthy p.placementId = true
      · cases hmt : b.mediaTypes with
        | none => simp [isBidRequestValid, hp, ht, hmt]
        | some mt => simp [isBidRequestValid, hp, ht, hmt]
      · simp [isBidRequestValid, hp, ht]

/-- C2, counterexample: an array body whose single entry is null makes
`interpretResponse` throw a `TypeError` (reading `response.id` of null),
so the call does not return normally for every array body. -/
theorem claim2_counterexample :
    interpretResponse (some [none]) =
      Except.error "TypeError: cannot read properties of null" :=
  rfl

/-- C2, amended: `interpretResponse` returns normally for every array
body all of whose entries are objects, even when entries lack any of the
copied fields; an entry that is null or undefined, however, makes the
property read throw. -/
theorem claim2_amended (entries : List (Option ServerBidEntry))
    (h : ∀ e ∈ entries, e.isSome = true) :
    ∃ out, interpretResponse (some entries) = Except.ok out := by
  induction entries with
  | nil => exact ⟨[], rfl⟩
  | cons e rest ih =>
    obtain ⟨v, rfl⟩ := Option.isSome_iff_exists.mp (h e (by simp))
    obtain ⟨out, hout⟩ := ih (fun x hx => h x (by simp [hx]))
    simp only [interpretResponse] at hout
    exact ⟨interpretEntry v :: out,
      by simp [interpretResponse, interpretEntries, hout]⟩

/-- C2, witness: an array body with one entry that is an object with
every copied field absent interprets without an error. -/
theorem claim2_witness :
    ∃ out, interpretResponse (some [some emptyEntry]) = Except.ok out :=
  claim2_amended [some emptyEntry] (by decide)

/-- C7: interpreting an array of well-formed entries yields exactly the
entry-wise copies, in the same order with no sorting, filtering or
deduplication; in particular the output length equals the input length
and the advertiser domains of the i-th output are the domain list of the
i-th entry. -/
theorem claim7 (entries : List ServerBidEntry) :
    interpretResponse (some (entries.map some)) =
      Except.ok (entries.map interpretEntry) ∧
    (entries.map interpretEntry).length = entries.length ∧
    ∀ i, ((entries.map interpretEntry).getD i
        (interpretEntry emptyEntry)).meta.advertiserDomains =
      (entries.getD i emptyEntry).domains := by
  refine ⟨?_, by simp, ?_⟩
  · induction entries with
    | nil => rfl
    | cons e rest ih =>
      simp only [interpretResponse] at ih
      simp [interpretResponse, interpretEntries, ih]
  · intro i
    rw [List.getD_map]
    rfl

theorem firePixels_eq_filter (ts : List Tracker) :
    firePixels ts = (ts.filter (fun t => t.type == 0)).map Tracker.url := by
  induction ts with
  | nil => rfl
  | cons t rest ih =>
    by_cases h : t.type == 0 <;> simp [firePixels, List.filter, h, ih]

/-- C8: the pixels fired by `onBidWon` are exactly the URLs of the
trackers with type code 0, in order, and no others; in particular a bid
carrying one type-0 and one type-1 tracker fires exactly one pixel, at
the type-0 URL. -/
theorem claim8 (bid : WonBid) (u0 u1 : String) :
    (onBidWon (some bid)).2 =
      ((bid.trackers.getD []).filter (fun t => t.type == 0)).map Tracker.url ∧
    (onBidWon (some { bid with trackers := some [⟨0, u0⟩, ⟨1, u1⟩] })).2 = [u0] := by
  constructor
  · cases ht : bid.trackers with
    | none => simp [onBidWon, ht]
    | some ts =>
      cases ts with
      | nil => simp [onBidWon, ht]
      | cons t rest =>
        simp [onBidWon, ht, firePixels_eq_filter]
  · simp [onBidWon, firePixels]

/-- C4: for every valid bid request, any auction context, configuration
and environment, the built request parses to a payload whose id is the
bid id, whose tmax is the auction timeout, whose placements list is the
single placement id, whose test flag is 1 exactly when the debug flag is
set, whose auction type is the constant 2, and whose user COPPA flag is
1 exactly when the COPPA flag is set. -/
theorem claim4 (bid : Bid) (br : BidderRequest) (cfg : Config) (env : Env)
    (h : isBidRequestValid (some bid) = true) :
    ∃ p r cfg2, bid.params = some p ∧
      buildBidRequest bid br cfg env = (some r, cfg2) ∧
      r.data.id = bid.bidId ∧
      r.data.tmax = br.timeout ∧
      r.data.placements = [p.placementId] ∧
      (r.data.test = if cfg.debug then 1 else 0) ∧
      r.data.at_ = 2 ∧
      (r.data.user.coppa = if cfg.coppa then 1 else 0) := by
  obtain ⟨bidId, params, mts⟩ := bid
  cases params with
  | none => simp [isBidRequestValid] at h
  | some p =>
    obtain ⟨tmo, gdprOpt, uspOpt⟩ := br
    refine ⟨p, _, _, rfl, rfl, rfl, rfl, rfl, rfl, rfl, ?_⟩
    cases gdprOpt with
    | none =>
      by_cases hu : strTruthy uspOpt = true <;> simp [hu]
    | some g =>
      by_cases happ : g.gdprApplies = true <;>
        by_cases hu : strTruthy uspOpt = true <;> simp [happ, hu]

/-- C4, witness: the concrete valid bid request built in the concrete
context has all the claimed payload fields. -/
theorem claim4_witness :
    ∃ p r cfg2, bidEx.params = some p ∧
      buildBidRequest bidEx brEx cfgNoDev envEx = (some r, cfg2) ∧
      r.data.id = bidEx.bidId ∧
      r.data.tmax = brEx.timeout ∧
      r.data.placements = [p.placementId] ∧
      (r.data.test = if cfgNoDev.debug then 1 else 0) ∧
      r.data.at_ = 2 ∧
      (r.data.user.coppa = if cfgNoDev.coppa then 1 else 0) :=
  claim4 bidEx brEx cfgNoDev envEx (by decide)

/-- C5: for every bid request whose params object is present, the built
payload carries user.gdpr = 1 and user.consent equal to the supplied
consent string when a GDPR consent context with gdprApplies is present,
carries neither field when the GDPR context is absent, carries user.usp
equal to any supplied non-empty US-privacy string, and omits user.usp
when the US-privacy string is absent or empty. -/
theorem claim5 (bid : Bid) (p : BidParams) (br : BidderRequest)
    (cfg : Config) (env : Env) (h : bid.params = some p) :
    ∃ r cfg2, buildBidRequest bid br cfg env = (some r, cfg2) ∧
      (∀ g, br.gdprConsent = some g → g.gdprApplies = true →
        r.data.user.gdpr = some 1 ∧ r.data.user.consent = some g.consentString) ∧
      (br.gdprConsent = none →
        r.data.user.gdpr = none ∧ r.data.user.consent = none) ∧
      (∀ s, br.uspConsent = some s → s ≠ "" → r.data.user.usp = some s) ∧
      (strTruthy br.uspConsent = false → r.data.user.usp = none) := by
  obtain ⟨bidId, params, mts⟩ := bid
  cases params with
  | none => simp at h
  | some p0 =>
    obtain ⟨tmo, gdprOpt, uspOpt⟩ := br
    refine ⟨_, _, rfl, ?_, ?_, ?_, ?_⟩
    · intro g hg happ
      simp only at hg
      subst hg
      by_cases hu : strTruthy uspOpt = true <;>
        simp [buildBidRequest, happ, hu]
    · intro hg
      simp only at hg
      subst hg
      by_cases hu : strTruthy uspOpt = true <;>
        simp [buildBidRequest, hu]
    · intro s hs hne
      simp only at hs
      subst hs
      have hu : strTruthy (some s) = true := by
        simp [strTruthy, hne]
      cases gdprOpt with
      | none => simp [buildBidRequest, hu]
      | some g =>
        by_cases happ : g.gdprApplies = true <;>
          simp [buildBidRequest, hu, happ]
    · intro hu
      cases gdprOpt with
      | none => simp [buildBidRequest, hu]
      | some g =>
        by_cases happ : g.gdprApplies = true <;>
          simp [buildBidRequest, hu, happ]

/-- C5, witness: in the concrete context where GDPR applies with a
concrete consent string and a concrete non-empty US-privacy string is
supplied, the concrete built payload carries all the claimed fields. -/
theorem claim5_witness :
    ∃ r cfg2, buildBidRequest bidEx brEx cfgNoDev envEx = (some r, cfg2) ∧
      (∀ g, brEx.gdprConsent = some g → g.gdprApplies = true →
        r.data.user.gdpr = some 1 ∧ r.data.user.consent = some g.consentString) ∧
      (brEx.gdprConsent = none →
        r.data.user.gdpr = none ∧ r.data.user.consent = none) ∧
      (∀ s, brEx.uspConsent = some s → s ≠ "" → r.data.user.usp = some s) ∧
      (strTruthy brEx.uspConsent = false → r.data.user.usp = none) :=
  claim5 bidEx { placementId := some "plc-9" } brEx cfgNoDev envEx rfl

theorem byteToHex_length (b : Nat) : (byteToHex b).length = 2 := rfl

theorem hexFlatten_length (bytes : List Nat) :
    ((bytes.map byteToHex).flatten).length = 2 * bytes.length := by
  induction bytes with
  | nil => rfl
  | cons b rest ih =>
    simp only [List.map_cons, List.flatten_cons, List.length_append, ih,
      byteToHex_length, List.length_cons]
    ring

theorem md5Digest_length (m : List Nat) : (md5Digest m).length = 16 := by
  simp [md5Digest, wordBytes]

theorem md5Hex_length (s : String) : (md5Hex s).length = 32 := by
  show ((md5Digest (strBytes s)).map byteToHex).flatten.length = 32
  rw [hexFlatten_length, md5Digest_length]

theorem hexDigit_mem (n : Nat) : hexDigit n ∈ hexChars := by
  have hlt : n % 16 < hexChars.length := Nat.mod_lt _ (by norm_num)
  rw [hexDigit, List.getD_eq_getElem _ _ hlt]
  exact List.getElem_mem hlt

theorem md5Hex_chars (s : String) :
    ∀ c ∈ (md5Hex s).toList, c ∈ hexChars := by
  intro c hc
  have hc2 : c ∈ ((md5Digest (strBytes s)).map byteToHex).flatten := hc
  rw [List.mem_flatten] at hc2
  obtain ⟨l, hl, hcl⟩ := hc2
  rw [List.mem_map] at hl
  obtain ⟨b, _, rfl⟩ := hl
  simp only [byteToHex, List.mem_cons, List.mem_singleton] at hcl
  rcases hcl with rfl | rfl | h
  · exact hexDigit_mem _
  · exact hexDigit_mem _
  · simp at h

/-- C10: the generated user id depends only on the user-agent string, so
two calls in the same environment agree; and for every environment the
result is a non-empty string of exactly 32 lowercase hexadecimal
characters (the 128-bit MD5 digest of the user agent, rendered as
hex). -/
theorem claim10 (e1 e2 : Env) (h : e1.userAgent = e2.userAgent) :
    generateUserId e1 = generateUserId e2 ∧
    generateUserId e1 ≠ "" ∧
    (generateUserId e1).length = 32 ∧
    ∀ c ∈ (generateUserId e1).toList, c ∈ hexChars := by
  refine ⟨by simp [generateUserId, h], ?_, md5Hex_length _, md5Hex_chars _⟩
  intro he
  have hlen := md5Hex_length e1.userAgent
  rw [show md5Hex e1.userAgent = generateUserId e1 from rfl, he] at hlen
  simp at hlen

/-- C10, witness: in the concrete environment the generated user id
agrees with itself, is non-empty, has 32 characters and consists of
lowercase hexadecimal digits. -/
theorem claim10_witness :
    generateUserId envEx = generateUserId envEx ∧
    generateUserId envEx ≠ "" ∧
    (generateUserId envEx).length = 32 ∧
    ∀ c ∈ (generateUserId envEx).toList, c ∈ hexChars :=
  claim10 envEx envEx rfl

end FanAdapter
